import Mathlib

/-!
# The redis client of sslsplit (`redis.c`)

A shallow embedding of `src/redis.c`: the process-wide connection context
`redis_ctx`, its construction and teardown, `redis_connect`, `redis_setup`, and
the three data operations `redis_set`, `redis_get`, `redis_exists` with the
status read `redis_is_connected`.

The hiredis library is outside the repository.  Each call into it takes its
outcome as an explicit argument (the handle returned by
`redisConnectWithTimeout`, the reply returned by `redisCommand`, the result of
each `malloc`), and every call is recorded in a trace of events, so that
statements about "a connection attempt was made" or "a command was issued on a
handle" are statements about that trace.

Conventions:

* C integers are `Int`; a conversion between integer types is written out
  (`to_int`, `to_size_t`).  `long` and `size_t` have 64 bits, `int` has 32.
* Memory is a list of bytes; a pointer that may be NULL is an `Option`.
* What hiredis declares and does is stated in the doc comment of the definition
  that stands for it (`redisReply`, `LenType`, `fmt_s`, `fmt_d`, `fmt_b`).
* `freeReplyObject` has no effect on anything `redis.c` reads afterwards and is
  not recorded.
-/

namespace Redis

/-- Bytes of C memory: each element is one `char` read as an unsigned byte. -/
abbrev Bytes := List Nat

/-- Reply type tag `REDIS_REPLY_STRING` of hiredis.h. -/
def REDIS_REPLY_STRING : Int := 1

/-- Reply type tag `REDIS_REPLY_ARRAY` of hiredis.h. -/
def REDIS_REPLY_ARRAY : Int := 2

/-- Reply type tag `REDIS_REPLY_INTEGER` of hiredis.h. -/
def REDIS_REPLY_INTEGER : Int := 3

/-- Reply type tag `REDIS_REPLY_NIL` of hiredis.h. -/
def REDIS_REPLY_NIL : Int := 4

/-- Reply type tag `REDIS_REPLY_STATUS` of hiredis.h. -/
def REDIS_REPLY_STATUS : Int := 5

/-- Reply type tag `REDIS_REPLY_ERROR` of hiredis.h. -/
def REDIS_REPLY_ERROR : Int := 6

/-- Conversion of an integer value to C `int` (32 bits, two's complement):
the value is taken modulo 2^32 into the range [-2^31, 2^31). -/
def to_int (x : Int) : Int := (x + 2147483648) % 4294967296 - 2147483648

/-- Conversion of an integer value to `size_t` (64 bits, unsigned). -/
def to_size_t (x : Int) : Int := x % 18446744073709551616

/-- The bytes of a C string: everything before the first zero byte. -/
def cstr (s : Bytes) : Bytes := s.takeWhile (fun b => b != 0)

/-- C `strlen`. -/
def strlen (s : Bytes) : Nat := (cstr s).length

/-- C `strncpy(dest, src, n)`: the first `n` bytes of `dest` are overwritten
with the bytes of the C string `src`, cut at `n` bytes when `src` is longer
(no terminator is written then) and padded with zero bytes up to `n` when it is
shorter.  The rest of `dest` is kept.  The result is the new content of `dest`.
`src` is read as a C string, so nothing after its first zero byte is copied. -/
def strncpy (dest src : Bytes) (n : Nat) : Bytes :=
  (cstr src ++ List.replicate n 0).take n ++ dest.drop n

/-- The `redisContext` of hiredis, as far as `redis.c` reads it: the `err`
field, and an identity that tells one opened transport from another. -/
structure redisContext where
  id : Nat
  err : Int
deriving DecidableEq, Repr

/-- The `redisReply` of hiredis, as far as `redis.c` reads it.  `str` is the
pointer field: `none` is a NULL pointer (hiredis leaves it NULL in replies
that carry no payload, such as a nil or an integer reply), `some s` points to
the payload bytes `s`, which hiredis stores followed by one zero byte. -/
structure redisReply where
  type : Int
  integer : Int
  len : Nat
  str : Option Bytes
deriving DecidableEq, Repr

/-- The declared type of the field `len` of `redisReply`.  The declaration is in
hiredis.h, outside the repository: older releases of hiredis have `int len`,
later ones `size_t len`.  It decides how C compares `reply->len` with the
`int buffer_length` in `redis_get`. -/
inductive LenType where
  | int
  | size_t
deriving DecidableEq, Repr

/-- The C comparison `reply->len < buffer_length` of `redis_get`, where
`buffer_length` is an `int`.  With `int len` it is a signed comparison.  With
`size_t len` the usual arithmetic conversions turn `buffer_length` into a
`size_t` first, so a negative `buffer_length` becomes 2^64 + buffer_length. -/
def len_lt (lt : LenType) (len : Nat) (buffer_length : Int) : Bool :=
  match lt with
  | LenType.int => decide ((len : Int) < buffer_length)
  | LenType.size_t => decide ((len : Int) < to_size_t buffer_length)

/-- A command as hiredis sends it, after `redisCommand` has expanded the
format string into its arguments. -/
inductive Command where
  | AUTH (password : Bytes)
  | SETEX (key : Bytes) (ttl : Int) (value : Bytes)
  | SET (key : Bytes) (value : Bytes)
  | GET (key : Bytes)
  | EXISTS (key : Bytes)
deriving DecidableEq, Repr

/-- What hiredis puts on the wire for a `%s` argument: the C string. -/
def fmt_s (arg : Bytes) : Bytes := cstr arg

/-- What hiredis puts on the wire for a `%d` argument.  Its formatter takes the
argument of a conversion without length modifier with `va_arg(ap, int)` and
prints it with `%d`, so of a wider argument only the low 32 bits are read, as
a signed `int`. -/
def fmt_d (arg : Int) : Int := to_int arg

/-- What hiredis puts on the wire for a `%b` argument pair (pointer, length):
the first `length` bytes at the pointer, zero bytes included.  The length is
taken as a `size_t`. -/
def fmt_b (arg : Bytes) (length : Int) : Bytes := arg.take (to_size_t length).toNat

/-- One call into hiredis, with its outcome. -/
inductive Event where
  | connect (server : Bytes) (port : Nat) (result : Option redisContext)
  | free (c : redisContext)
  | command (c : redisContext) (cmd : Command) (reply : Option redisReply)
deriving DecidableEq, Repr

/-- The struct `redis_conn_ctx_t`.  `password` and `ctx` are pointers, `none`
is NULL. -/
structure redis_conn_ctx_t where
  server : Bytes
  port : Nat
  password : Option Bytes
  ctx : Option redisContext
  is_connected : Int
deriving DecidableEq, Repr

/-- The state of the program: the global pointer `redis_ctx` (`none` is NULL)
and the calls into hiredis made so far, oldest first. -/
structure World where
  redis_ctx : Option redis_conn_ctx_t
  trace : List Event
deriving DecidableEq, Repr

/-- The state at program start: `static redis_conn_ctx_t* redis_ctx = NULL`. -/
def initial : World := { redis_ctx := none, trace := [] }

/-- The outcome of the allocations of `redis_ctx_new`: whether each `malloc`
succeeds, and `junk`, the value that the field `ctx` of the struct holds when
it comes from `malloc` (the function never assigns that field). -/
structure Alloc where
  ctx_ok : Bool
  server_ok : Bool
  password_ok : Bool
  junk : Option redisContext
deriving DecidableEq, Repr

/-- The function `redis_ctx_free`: the calls into hiredis it makes.  The
struct itself is gone afterwards. -/
def redis_ctx_free (ctx : redis_conn_ctx_t) : List Event :=
  match ctx.ctx with
  | some h => [Event.free h]
  | none => []

/-- The function `redis_ctx_new`: the new struct (`none` is a NULL return) and
the calls into hiredis made on the way. -/
def redis_ctx_new (a : Alloc) (server : Bytes) (port : Nat) (password : Option Bytes) :
    Option redis_conn_ctx_t × List Event :=
  if !a.ctx_ok then (none, [])
  else
    let password_len : Nat :=
      match password with
      | some p => strlen p
      | none => 0
    let ctx : redis_conn_ctx_t :=
      { server := cstr server
        port := port
        password := if password_len != 0 then password.map cstr else none
        ctx := a.junk
        is_connected := 0 }
    if !a.server_ok || (password_len != 0 && !a.password_ok) then
      (none, redis_ctx_free ctx)
    else
      (some ctx, [])

/-- The result of `redis_connect`: the returned `int`, the struct as the call
leaves it, and the calls into hiredis it made. -/
structure ConnectResult where
  ret : Int
  ctx : redis_conn_ctx_t
  events : List Event
deriving DecidableEq, Repr

/-- The function `redis_connect`.  `conn` is what `redisConnectWithTimeout` returns and
`auth` what `redisCommand` returns for the AUTH command, when these calls are
made. -/
def redis_connect (conn : Option redisContext) (auth : Option redisReply)
    (ctx : redis_conn_ctx_t) : ConnectResult :=
  if ctx.is_connected != 0 then { ret := 1, ctx := ctx, events := [] }
  else
    let stale : List Event :=
      match ctx.ctx with
      | some old => [Event.free old]
      | none => []
    let opened : List Event := stale ++ [Event.connect ctx.server ctx.port conn]
    match conn with
    | none => { ret := 0, ctx := { ctx with ctx := none }, events := opened }
    | some h =>
      if h.err != 0 then
        { ret := 0, ctx := { ctx with ctx := none }, events := opened ++ [Event.free h] }
      else
        match ctx.password with
        | some p =>
          let sent : List Event := opened ++ [Event.command h (Command.AUTH (fmt_s p)) auth]
          match auth with
          | none =>
            { ret := 0, ctx := { ctx with ctx := none }, events := sent ++ [Event.free h] }
          | some pwd_reply =>
            if pwd_reply.type == REDIS_REPLY_ERROR then
              { ret := 0, ctx := { ctx with ctx := none }, events := sent ++ [Event.free h] }
            else
              { ret := 1, ctx := { ctx with ctx := some h, is_connected := 1 }, events := sent }
        | none =>
          { ret := 1, ctx := { ctx with ctx := some h, is_connected := 1 }, events := opened }

/-- The function `redis_setup`: the returned `int` and the state after the call. -/
def redis_setup (a : Alloc) (conn : Option redisContext) (auth : Option redisReply)
    (server : Bytes) (port : Nat) (password : Option Bytes) (w : World) : Int × World :=
  let released : List Event :=
    match w.redis_ctx with
    | some old => redis_ctx_free old
    | none => []
  let fresh := redis_ctx_new a server port password
  match fresh.1 with
  | none => (0, { redis_ctx := none, trace := w.trace ++ released ++ fresh.2 })
  | some ctx =>
    let r := redis_connect conn auth ctx
    (r.ret, { redis_ctx := some r.ctx, trace := w.trace ++ released ++ fresh.2 ++ r.events })

/-- The function `redis_is_connected`:
`redis_ctx && redis_ctx->is_connected && redis_ctx->ctx`. -/
def redis_is_connected (w : World) : Int :=
  match w.redis_ctx with
  | none => 0
  | some ctx => if ctx.is_connected != 0 && ctx.ctx.isSome then 1 else 0

/-- The pointer `redis_ctx->ctx` that the data operations hand to
`redisCommand`; they read it only behind the `redis_is_connected` guard. -/
def handle (w : World) : Option redisContext :=
  match w.redis_ctx with
  | none => none
  | some ctx => ctx.ctx

/-- The function `redis_set`.  `reply` is what `redisCommand` returns; it is freed
without being read. -/
def redis_set (reply : Option redisReply) (key value : Bytes) (length : Int) (ttl : Int)
    (w : World) : World :=
  if redis_is_connected w == 0 then w
  else
    match handle w with
    | none => w
    | some h =>
      let cmd : Command :=
        if ttl > 0 then Command.SETEX (fmt_s key) (fmt_d ttl) (fmt_b value length)
        else Command.SET (fmt_s key) (fmt_b value length)
      { w with trace := w.trace ++ [Event.command h cmd reply] }

/-- The result of `redis_get`.  `result` is the returned `int`; it is `none` when the
call does not return because `strncpy` is handed a NULL destination.  `buffer`
is the caller's buffer after the call, `reply_str` the memory at `reply->str`
(payload and terminator) as `strncpy` leaves it, just before the reply is
freed. -/
structure GetResult where
  result : Option Int
  world : World
  buffer : Bytes
  reply_str : Option Bytes
deriving DecidableEq, Repr

/-- The function `redis_get`.  `reply` is what `redisCommand` returns, `buffer` the bytes of
the caller's buffer. -/
def redis_get (lt : LenType) (reply : Option redisReply) (key : Bytes) (buffer : Bytes)
    (buffer_length : Int) (w : World) : GetResult :=
  if redis_is_connected w == 0 then
    { result := some 0, world := w, buffer := buffer, reply_str := none }
  else
    match handle w with
    | none => { result := some 0, world := w, buffer := buffer, reply_str := none }
    | some h =>
      let w1 : World := { w with trace := w.trace ++ [Event.command h (Command.GET (fmt_s key)) reply] }
      match reply with
      | none => { result := some 0, world := w1, buffer := buffer, reply_str := none }
      | some r =>
        if r.type != REDIS_REPLY_ERROR && len_lt lt r.len buffer_length then
          match r.str with
          | none => { result := none, world := w1, buffer := buffer, reply_str := none }
          | some s =>
            { result := some 1, world := w1, buffer := buffer
              reply_str := some (strncpy (s ++ [0]) buffer (r.len + 1)) }
        else
          { result := some 0, world := w1, buffer := buffer
            reply_str := r.str.map (fun s => s ++ [0]) }

/-- The function `redis_exists`: the returned `int` and the state after the call.  The
`long long` field `integer` of the reply is assigned to the `int` result. -/
def redis_exists (reply : Option redisReply) (key : Bytes) (w : World) : Int × World :=
  if redis_is_connected w == 0 then (0, w)
  else
    match handle w with
    | none => (0, w)
    | some h =>
      let w1 : World := { w with trace := w.trace ++ [Event.command h (Command.EXISTS (fmt_s key)) reply] }
      match reply with
      | none => (0, w1)
      | some r => if r.type == REDIS_REPLY_INTEGER then (to_int r.integer, w1) else (0, w1)

/-- One call of the public interface, together with the outcomes of the calls
into hiredis and `malloc` that it may make. -/
inductive Call where
  | setup (a : Alloc) (conn : Option redisContext) (auth : Option redisReply)
      (server : Bytes) (port : Nat) (password : Option Bytes)
  | set (reply : Option redisReply) (key value : Bytes) (length : Int) (ttl : Int)
  | get (lt : LenType) (reply : Option redisReply) (key buffer : Bytes) (buffer_length : Int)
  | existsCheck (reply : Option redisReply) (key : Bytes)
deriving DecidableEq, Repr

/-- The state after one call. -/
def step (w : World) : Call → World
  | Call.setup a conn auth server port password =>
    (redis_setup a conn auth server port password w).2
  | Call.set reply key value length ttl => redis_set reply key value length ttl w
  | Call.get lt reply key buffer buffer_length =>
    (redis_get lt reply key buffer buffer_length w).world
  | Call.existsCheck reply key => (redis_exists reply key w).2

/-- The state after a sequence of calls made from program start. -/
def run (calls : List Call) : World := calls.foldl step initial

/-- Whether an event is a call of `redisConnectWithTimeout`. -/
def isConnect : Event → Bool
  | Event.connect _ _ _ => true
  | _ => false

/-- The number of connection attempts in a trace. -/
def connects (t : List Event) : Nat := t.countP isConnect

/-- Whether an event is a `redisCommand` call on the handle `h`. -/
def isCommandOn (h : redisContext) : Event → Bool
  | Event.command c _ _ => decide (c = h)
  | _ => false

/-- An allocation outcome in which every `malloc` succeeds and the fresh struct
holds no stray handle. -/
def alloc_ok : Alloc := { ctx_ok := true, server_ok := true, password_ok := true, junk := none }

/-- A transport handle that opened without error. -/
def handle7 : redisContext := { id := 7, err := 0 }

/-- A status reply "OK". -/
def reply_ok : redisReply := { type := REDIS_REPLY_STATUS, integer := 0, len := 2, str := some [79, 75] }

/-- An error reply. -/
def reply_err : redisReply := { type := REDIS_REPLY_ERROR, integer := 0, len := 3, str := some [69, 82, 82] }

/-- A string reply with the two-byte payload "ab". -/
def reply_ab : redisReply := { type := REDIS_REPLY_STRING, integer := 0, len := 2, str := some [97, 98] }

/-- A nil reply, as a GET for a key that does not exist gets it: no payload,
length 0. -/
def reply_nil : redisReply := { type := REDIS_REPLY_NIL, integer := 0, len := 0, str := none }

/-- An integer reply carrying 2^32. -/
def reply_big : redisReply := { type := REDIS_REPLY_INTEGER, integer := 4294967296, len := 0, str := none }

/-- An integer reply carrying 1. -/
def reply_one : redisReply := { type := REDIS_REPLY_INTEGER, integer := 1, len := 0, str := none }

/-- A configured state that is not connected: `redis_setup` was called while the
server could not be reached. -/
def world_down : World := (redis_setup alloc_ok none none [104] 6379 none initial).2

/-- A connected state without password. -/
def world_up : World := (redis_setup alloc_ok (some handle7) none [104] 6379 none initial).2

/-- A configured context with the password "pw" whose connected flag is clear. -/
def ctx_pw : redis_conn_ctx_t :=
  { server := [104], port := 6379, password := some [112, 119], ctx := none, is_connected := 0 }

/-- What the connected flag stands for.  When the flag of the global context is
set, the handle pointer is not NULL, the handle reported no error when it was
opened and, when a password is stored, the trace ends with the opening of that
handle for the stored server and port, the AUTH command for the stored password
on that handle with a reply that is not an error, and after these nothing but
commands on that same handle (so the handle was neither released nor replaced
since). -/
def connected_invariant (w : World) : Prop :=
  ∀ c, w.redis_ctx = some c → c.is_connected ≠ 0 →
    ∃ h, c.ctx = some h ∧ h.err = 0 ∧
      ∀ p, c.password = some p →
        p ≠ [] ∧ ∃ r pre post, r.type ≠ REDIS_REPLY_ERROR
          ∧ w.trace = pre ++ Event.connect c.server c.port (some h)
              :: Event.command h (Command.AUTH (fmt_s p)) (some r) :: post
          ∧ ∀ e ∈ post, isCommandOn h e = true

/-! ## Arithmetic of the C conversions -/

theorem to_int_of_range (x : Int) (h1 : -2147483648 ≤ x) (h2 : x < 2147483648) :
    to_int x = x := by
  unfold to_int
  omega

theorem to_int_eq_zero_iff (x : Int) : to_int x = 0 ↔ x % 4294967296 = 0 := by
  unfold to_int
  omega

theorem to_size_t_of_nonneg (x : Int) (h1 : 0 ≤ x) (h2 : x < 2147483648) :
    to_size_t x = x := by
  unfold to_size_t
  omega

theorem to_size_t_of_neg (x : Int) (h1 : -2147483648 ≤ x) (h2 : x < 0) :
    to_size_t x = 18446744073709551616 + x := by
  unfold to_size_t
  omega

/-! ## The guard of the data operations -/

theorem handle_of_connected (w : World) (h : redis_is_connected w ≠ 0) :
    ∃ c hd, w.redis_ctx = some c ∧ c.ctx = some hd ∧ handle w = some hd := by
  unfold redis_is_connected at h
  cases hw : w.redis_ctx with
  | none => simp [hw] at h
  | some c =>
    cases hc : c.ctx with
    | none => simp [hw, hc] at h
    | some hd => exact ⟨c, hd, rfl, hc, by simp [handle, hw, hc]⟩

theorem redis_set_of_down (reply : Option redisReply) (key value : Bytes) (length ttl : Int)
    (w : World) (h : redis_is_connected w = 0) :
    redis_set reply key value length ttl w = w := by
  simp [redis_set, h]

theorem redis_get_of_down (lt : LenType) (reply : Option redisReply) (key buffer : Bytes)
    (buffer_length : Int) (w : World) (h : redis_is_connected w = 0) :
    redis_get lt reply key buffer buffer_length w
      = { result := some 0, world := w, buffer := buffer, reply_str := none } := by
  simp [redis_get, h]

theorem redis_exists_of_down (reply : Option redisReply) (key : Bytes)
    (w : World) (h : redis_is_connected w = 0) :
    redis_exists reply key w = (0, w) := by
  simp [redis_exists, h]

theorem redis_set_of_up (reply : Option redisReply) (key value : Bytes) (length ttl : Int)
    (w : World) (hd : redisContext) (h : redis_is_connected w ≠ 0) (hh : handle w = some hd) :
    redis_set reply key value length ttl w
      = { w with trace := w.trace ++ [Event.command hd
            (if ttl > 0 then Command.SETEX (fmt_s key) (fmt_d ttl) (fmt_b value length)
             else Command.SET (fmt_s key) (fmt_b value length)) reply] } := by
  simp [redis_set, h, hh]

theorem redis_get_world_of_up (lt : LenType) (reply : Option redisReply) (key buffer : Bytes)
    (buffer_length : Int) (w : World) (hd : redisContext)
    (h : redis_is_connected w ≠ 0) (hh : handle w = some hd) :
    (redis_get lt reply key buffer buffer_length w).world
      = { w with trace := w.trace ++ [Event.command hd (Command.GET (fmt_s key)) reply] } := by
  simp only [redis_get, beq_iff_eq, h, if_false, hh]
  cases reply with
  | none => rfl
  | some r =>
    simp only
    split
    · cases r.str <;> rfl
    · rfl

theorem redis_exists_world_of_up (reply : Option redisReply) (key : Bytes)
    (w : World) (hd : redisContext) (h : redis_is_connected w ≠ 0) (hh : handle w = some hd) :
    (redis_exists reply key w).2
      = { w with trace := w.trace ++ [Event.command hd (Command.EXISTS (fmt_s key)) reply] } := by
  simp only [redis_exists, beq_iff_eq, h, if_false, hh]
  cases reply with
  | none => rfl
  | some r =>
    simp only
    split <;> rfl

/-! ## The connection attempt -/

theorem redis_connect_of_connected (conn : Option redisContext) (auth : Option redisReply)
    (ctx : redis_conn_ctx_t) (h : ctx.is_connected ≠ 0) :
    redis_connect conn auth ctx = { ret := 1, ctx := ctx, events := [] } := by
  simp [redis_connect, h]

theorem redis_connect_ret (conn : Option redisContext) (auth : Option redisReply)
    (ctx : redis_conn_ctx_t) (hc : ctx.is_connected = 0) :
    (redis_connect conn auth ctx).ret
      = redis_is_connected { redis_ctx := some (redis_connect conn auth ctx).ctx, trace := [] } := by
  unfold redis_connect redis_is_connected
  cases conn with
  | none => simp [hc]
  | some h =>
    by_cases he : h.err = 0
    · cases hp : ctx.password with
      | none => simp [hc, he]
      | some p =>
        cases auth with
        | none => simp [hc, he]
        | some r => by_cases hr : r.type = REDIS_REPLY_ERROR <;> simp [hc, he, hr]
    · simp [hc, he]

theorem redis_connect_config (conn : Option redisContext) (auth : Option redisReply)
    (ctx : redis_conn_ctx_t) :
    (redis_connect conn auth ctx).ctx.server = ctx.server
      ∧ (redis_connect conn auth ctx).ctx.port = ctx.port
      ∧ (redis_connect conn auth ctx).ctx.password = ctx.password := by
  unfold redis_connect
  by_cases hc : ctx.is_connected = 0
  · cases conn with
    | none => simp [hc]
    | some h =>
      by_cases he : h.err = 0
      · cases hp : ctx.password with
        | none => simp [hc, he]
        | some p =>
          cases auth with
          | none => simp [hc, he]
          | some r => by_cases hr : r.type = REDIS_REPLY_ERROR <;> simp [hc, he, hr]
      · simp [hc, he]
  · simp [hc]

theorem redis_connect_failed (conn : Option redisContext) (auth : Option redisReply)
    (ctx : redis_conn_ctx_t) (hc : ctx.is_connected = 0)
    (hret : (redis_connect conn auth ctx).ret = 0) :
    (redis_connect conn auth ctx).ctx.ctx = none
      ∧ (redis_connect conn auth ctx).ctx.is_connected = 0 := by
  revert hret
  unfold redis_connect
  cases conn with
  | none => simp [hc]
  | some h =>
    by_cases he : h.err = 0
    · cases hp : ctx.password with
      | none => simp [hc, he]
      | some p =>
        cases auth with
        | none => simp [hc, he]
        | some r => by_cases hr : r.type = REDIS_REPLY_ERROR <;> simp [hc, he, hr]
    · simp [hc, he]

theorem redis_connect_success (h : redisContext) (auth : Option redisReply)
    (ctx : redis_conn_ctx_t) (hc : ctx.is_connected = 0) (herr : h.err = 0)
    (hauth : ∀ p, ctx.password = some p → ∃ r, auth = some r ∧ r.type ≠ REDIS_REPLY_ERROR) :
    (redis_connect (some h) auth ctx).ret = 1
      ∧ (redis_connect (some h) auth ctx).ctx.ctx = some h := by
  unfold redis_connect
  cases hp : ctx.password with
  | none => simp [hc, herr]
  | some p =>
    obtain ⟨r, hr, hne⟩ := hauth p hp
    subst hr
    simp [hc, herr, hne]

theorem redis_connect_ctx_independent (conn : Option redisContext) (auth : Option redisReply)
    (ctx : redis_conn_ctx_t) (stale : Option redisContext) (hc : ctx.is_connected = 0) :
    (redis_connect conn auth { ctx with ctx := stale }).ret = (redis_connect conn auth ctx).ret
      ∧ (redis_connect conn auth { ctx with ctx := stale }).ctx = (redis_connect conn auth ctx).ctx := by
  unfold redis_connect
  cases conn with
  | none => simp [hc]
  | some h =>
    by_cases he : h.err = 0
    · cases hp : ctx.password with
      | none => simp [hc, he]
      | some p =>
        cases auth with
        | none => simp [hc, he]
        | some r => by_cases hr : r.type = REDIS_REPLY_ERROR <;> simp [hc, he, hr]
    · simp [hc, he]

theorem redis_ctx_new_fresh (a : Alloc) (server : Bytes) (port : Nat) (password : Option Bytes)
    (ctx : redis_conn_ctx_t) (h : (redis_ctx_new a server port password).1 = some ctx) :
    ctx.is_connected = 0 ∧ ctx.server = cstr server ∧ ctx.port = port
      ∧ ctx.ctx = a.junk
      ∧ ctx.password
          = password.bind (fun p => if strlen p ≠ 0 then some (cstr p) else none) := by
  unfold redis_ctx_new at h
  by_cases h1 : a.ctx_ok = true
  · simp only [h1, Bool.not_true, Bool.false_eq_true, if_false] at h
    split at h
    · simp at h
    · simp only [Option.some.injEq] at h
      subst h
      cases password with
      | none => simp
      | some p => by_cases hp : strlen p = 0 <;> simp [hp]
  · simp [h1] at h

/-! ## Configure -/

theorem redis_setup_of_no_ctx (a : Alloc) (conn : Option redisContext) (auth : Option redisReply)
    (server : Bytes) (port : Nat) (password : Option Bytes) (w : World)
    (h : (redis_ctx_new a server port password).1 = none) :
    redis_setup a conn auth server port password w
      = (0, { redis_ctx := none
              trace := w.trace
                ++ (match w.redis_ctx with
                    | some old => redis_ctx_free old
                    | none => [])
                ++ (redis_ctx_new a server port password).2 }) := by
  simp [redis_setup, h]

theorem redis_setup_of_ctx (a : Alloc) (conn : Option redisContext) (auth : Option redisReply)
    (server : Bytes) (port : Nat) (password : Option Bytes) (w : World) (ctx : redis_conn_ctx_t)
    (h : (redis_ctx_new a server port password).1 = some ctx) :
    redis_setup a conn auth server port password w
      = ((redis_connect conn auth ctx).ret,
         { redis_ctx := some (redis_connect conn auth ctx).ctx
           trace := w.trace
             ++ (match w.redis_ctx with
                 | some old => redis_ctx_free old
                 | none => [])
             ++ (redis_ctx_new a server port password).2
             ++ (redis_connect conn auth ctx).events }) := by
  simp [redis_setup, h]

theorem redis_setup_ret (a : Alloc) (conn : Option redisContext) (auth : Option redisReply)
    (server : Bytes) (port : Nat) (password : Option Bytes) (w : World) :
    (redis_setup a conn auth server port password w).1
      = redis_is_connected (redis_setup a conn auth server port password w).2 := by
  cases hn : (redis_ctx_new a server port password).1 with
  | none =>
    rw [redis_setup_of_no_ctx a conn auth server port password w hn]
    rfl
  | some ctx =>
    rw [redis_setup_of_ctx a conn auth server port password w ctx hn]
    exact redis_connect_ret conn auth ctx (redis_ctx_new_fresh a server port password ctx hn).1

/-- C5: for every prior state and every outcome of allocation, transport open and
authentication, `redis_setup` returns exactly the value `redis_is_connected` has
right after the call; the handle of the previous context is released first (the
first new event is its `redisFree`); the context after the call and the return
value are those the same call gives from the unconfigured state, so nothing of
the previous configuration survives, and a context that exists afterwards holds
the new server, port and password; and when the call returns 0 the client is
disconnected with no handle at all. -/
theorem redis_setup_replaces_state (a : Alloc) (conn : Option redisContext)
    (auth : Option redisReply) (server : Bytes) (port : Nat) (password : Option Bytes)
    (w : World) :
    (redis_setup a conn auth server port password w).1
        = redis_is_connected (redis_setup a conn auth server port password w).2
      ∧ (∀ old h, w.redis_ctx = some old → old.ctx = some h →
          ∃ rest, (redis_setup a conn auth server port password w).2.trace
            = w.trace ++ Event.free h :: rest)
      ∧ (redis_setup a conn auth server port password w).2.redis_ctx
          = (redis_setup a conn auth server port password initial).2.redis_ctx
      ∧ (redis_setup a conn auth server port password w).1
          = (redis_setup a conn auth server port password initial).1
      ∧ (∀ c, (redis_setup a conn auth server port password w).2.redis_ctx = some c →
          c.server = cstr server ∧ c.port = port
            ∧ c.password
                = password.bind (fun p => if strlen p ≠ 0 then some (cstr p) else none))
      ∧ ((redis_setup a conn auth server port password w).1 = 0 →
          redis_is_connected (redis_setup a conn auth server port password w).2 = 0
            ∧ handle (redis_setup a conn auth server port password w).2 = none) := by
  cases hn : (redis_ctx_new a server port password).1 with
  | none =>
    rw [redis_setup_of_no_ctx a conn auth server port password w hn,
      redis_setup_of_no_ctx a conn auth server port password initial hn]
    refine ⟨rfl, ?_, rfl, rfl, ?_, ?_⟩
    · intro old h ho hh
      simp [ho, redis_ctx_free, hh, List.append_assoc]
    · intro c hc
      simp at hc
    · intro _
      exact ⟨rfl, rfl⟩
  | some ctx =>
    rw [redis_setup_of_ctx a conn auth server port password w ctx hn,
      redis_setup_of_ctx a conn auth server port password initial ctx hn]
    obtain ⟨hz, hs, hp, _, hpw⟩ := redis_ctx_new_fresh a server port password ctx hn
    refine ⟨?_, ?_, rfl, rfl, ?_, ?_⟩
    · exact redis_connect_ret conn auth ctx hz
    · intro old h ho hh
      simp [ho, redis_ctx_free, hh, List.append_assoc]
    · intro c hc
      simp only [Option.some.injEq] at hc
      subst hc
      obtain ⟨h1, h2, h3⟩ := redis_connect_config conn auth ctx
      rw [h1, h2, h3]
      exact ⟨hs, hp, hpw⟩
    · intro hret
      simp only at hret
      obtain ⟨h1, h2⟩ := redis_connect_failed conn auth ctx hz hret
      constructor
      · simp [redis_is_connected, h2]
      · simp [handle, h1]

/-! ## The unconfigured state -/

/-- C7: while `redis_setup` has never been called the global context is absent
(the state `initial`, with any trace of earlier calls in place of the empty one):
`redis_is_connected` returns 0, `redis_get` returns 0 and leaves the buffer as it
was, `redis_exists` returns 0 and `redis_set` returns, for every argument and
every reply the transport might have given; the state is the same afterwards, so
no command is issued and nothing is read from the absent context. -/
theorem unconfigured_operations_are_noops (t : List Event) (lt : LenType)
    (reply : Option redisReply) (key value buffer : Bytes) (length ttl buffer_length : Int) :
    redis_is_connected initial = 0
      ∧ redis_is_connected { initial with trace := t } = 0
      ∧ redis_get lt reply key buffer buffer_length { initial with trace := t }
          = { result := some 0, world := { initial with trace := t }, buffer := buffer
              reply_str := none }
      ∧ redis_exists reply key { initial with trace := t } = (0, { initial with trace := t })
      ∧ redis_set reply key value length ttl { initial with trace := t }
          = { initial with trace := t } := by
  have h0 : redis_is_connected { initial with trace := t } = 0 := rfl
  exact ⟨rfl, h0, redis_get_of_down lt reply key buffer buffer_length _ h0,
    redis_exists_of_down reply key _ h0, redis_set_of_down reply key value length ttl _ h0⟩

/-! ## The data operations leave the connection state alone -/

theorem redis_set_ctx (reply : Option redisReply) (key value : Bytes) (length ttl : Int)
    (w : World) : (redis_set reply key value length ttl w).redis_ctx = w.redis_ctx := by
  by_cases h : redis_is_connected w = 0
  · rw [redis_set_of_down reply key value length ttl w h]
  · obtain ⟨c, hd, _, _, hh⟩ := handle_of_connected w h
    rw [redis_set_of_up reply key value length ttl w hd h hh]

theorem redis_get_ctx (lt : LenType) (reply : Option redisReply) (key buffer : Bytes)
    (buffer_length : Int) (w : World) :
    (redis_get lt reply key buffer buffer_length w).world.redis_ctx = w.redis_ctx := by
  by_cases h : redis_is_connected w = 0
  · rw [redis_get_of_down lt reply key buffer buffer_length w h]
  · obtain ⟨c, hd, _, _, hh⟩ := handle_of_connected w h
    rw [redis_get_world_of_up lt reply key buffer buffer_length w hd h hh]

theorem redis_exists_ctx (reply : Option redisReply) (key : Bytes) (w : World) :
    (redis_exists reply key w).2.redis_ctx = w.redis_ctx := by
  by_cases h : redis_is_connected w = 0
  · rw [redis_exists_of_down reply key w h]
  · obtain ⟨c, hd, _, _, hh⟩ := handle_of_connected w h
    rw [redis_exists_world_of_up reply key w hd h hh]

theorem redis_is_connected_congr (w1 w2 : World) (h : w1.redis_ctx = w2.redis_ctx) :
    redis_is_connected w1 = redis_is_connected w2 := by
  unfold redis_is_connected
  rw [h]

/-- C10: `redis_set`, `redis_get` and `redis_exists` never change the connection
state.  For every state and every reply, the absent reply of a severed
connection included, the global context after the call (configuration, transport
handle and connected flag) is the one before the call, and `redis_is_connected`
returns the same value before and after. -/
theorem data_ops_keep_connection_state (lt : LenType) (reply : Option redisReply)
    (key value buffer : Bytes) (length ttl buffer_length : Int) (w : World) :
    (redis_set reply key value length ttl w).redis_ctx = w.redis_ctx
      ∧ (redis_get lt reply key buffer buffer_length w).world.redis_ctx = w.redis_ctx
      ∧ (redis_exists reply key w).2.redis_ctx = w.redis_ctx
      ∧ redis_is_connected (redis_set reply key value length ttl w) = redis_is_connected w
      ∧ redis_is_connected (redis_get lt reply key buffer buffer_length w).world
          = redis_is_connected w
      ∧ redis_is_connected (redis_exists reply key w).2 = redis_is_connected w :=
  ⟨redis_set_ctx reply key value length ttl w,
    redis_get_ctx lt reply key buffer buffer_length w,
    redis_exists_ctx reply key w,
    redis_is_connected_congr _ _ (redis_set_ctx reply key value length ttl w),
    redis_is_connected_congr _ _ (redis_get_ctx lt reply key buffer buffer_length w),
    redis_is_connected_congr _ _ (redis_exists_ctx reply key w)⟩

/-! ## Failed connection attempts -/

theorem redis_connect_open_failed (conn : Option redisContext) (auth : Option redisReply)
    (ctx : redis_conn_ctx_t) (hc : ctx.is_connected = 0)
    (hopen : conn = none ∨ ∃ h, conn = some h ∧ h.err ≠ 0) :
    (redis_connect conn auth ctx).ret = 0
      ∧ ∀ h, conn = some h → (redis_connect conn auth ctx).events.getLast? = some (Event.free h) := by
  unfold redis_connect
  rcases hopen with hn | ⟨h, hs, he⟩
  · subst hn
    simp [hc]
  · subst hs
    simp [hc, he]

theorem redis_connect_auth_failed (h : redisContext) (auth : Option redisReply)
    (ctx : redis_conn_ctx_t) (p : Bytes) (hc : ctx.is_connected = 0)
    (hp : ctx.password = some p)
    (hauth : auth = none ∨ ∃ r, auth = some r ∧ r.type = REDIS_REPLY_ERROR) :
    (redis_connect (some h) auth ctx).ret = 0
      ∧ (redis_connect (some h) auth ctx).events.getLast? = some (Event.free h) := by
  unfold redis_connect
  by_cases he : h.err = 0
  · rcases hauth with hn | ⟨r, hs, hr⟩
    · subst hn
      simp [hc, he, hp]
    · subst hs
      simp [hc, he, hp, hr]
  · simp [hc, he]

/-- C8, as the code has it: on a configured context whose connected flag is
clear, `redis_connect` returns 0, leaves the flag clear and the handle pointer
NULL, keeps the configuration, and has released the handle it opened (its last
call into the transport is the `redisFree` of that handle) whenever the
transport open fails (NULL handle, or a handle reporting an error) or, with a
password stored, the AUTH command gets no reply or an error reply.
Consequently `redis_setup` with a non-empty password for which AUTH gets no
reply or an error reply returns 0 and leaves `redis_is_connected` at 0, whatever
the previous state and the outcomes of allocation and transport open.  An empty
password is stored as no password and no AUTH is sent for it: `redis_setup` with
an empty password returns 1 and leaves `redis_is_connected` at 1 whenever the
context and server allocations succeed and the transport opens without error,
whatever reply AUTH would get. -/
theorem redis_connect_failure_stays_disconnected (conn : Option redisContext)
    (auth : Option redisReply) (ctx : redis_conn_ctx_t)
    (hc : ctx.is_connected = 0)
    (hfail : conn = none ∨ (∃ h, conn = some h ∧ h.err ≠ 0)
      ∨ (∃ p, ctx.password = some p
          ∧ (auth = none ∨ ∃ r, auth = some r ∧ r.type = REDIS_REPLY_ERROR))) :
    ((redis_connect conn auth ctx).ret = 0
        ∧ (redis_connect conn auth ctx).ctx.is_connected = 0
        ∧ (redis_connect conn auth ctx).ctx.ctx = none
        ∧ (redis_connect conn auth ctx).ctx.server = ctx.server
        ∧ (redis_connect conn auth ctx).ctx.port = ctx.port
        ∧ (redis_connect conn auth ctx).ctx.password = ctx.password
        ∧ ∀ h, conn = some h →
            (redis_connect conn auth ctx).events.getLast? = some (Event.free h))
      ∧ (∀ (a : Alloc) (server : Bytes) (port : Nat) (pw : Bytes) (w : World)
          (open_result : Option redisContext),
          strlen pw ≠ 0 →
          (auth = none ∨ ∃ r, auth = some r ∧ r.type = REDIS_REPLY_ERROR) →
          (redis_setup a open_result auth server port (some pw) w).1 = 0
            ∧ redis_is_connected (redis_setup a open_result auth server port (some pw) w).2 = 0)
      ∧ ∀ (a : Alloc) (server : Bytes) (port : Nat) (pw : Bytes) (w : World)
          (h : redisContext),
          strlen pw = 0 → a.ctx_ok = true → a.server_ok = true → h.err = 0 →
          (redis_setup a (some h) auth server port (some pw) w).1 = 1
            ∧ redis_is_connected (redis_setup a (some h) auth server port (some pw) w).2 = 1 := by
  refine ⟨?_, ?_, ?_⟩
  · have hret : (redis_connect conn auth ctx).ret = 0
        ∧ ∀ h, conn = some h →
            (redis_connect conn auth ctx).events.getLast? = some (Event.free h) := by
      rcases hfail with hn | hs | ⟨p, hp, hauth⟩
      · exact redis_connect_open_failed conn auth ctx hc (Or.inl hn)
      · exact redis_connect_open_failed conn auth ctx hc (Or.inr hs)
      · cases conn with
        | none => exact redis_connect_open_failed none auth ctx hc (Or.inl rfl)
        | some h =>
          obtain ⟨h1, h2⟩ := redis_connect_auth_failed h auth ctx p hc hp hauth
          refine ⟨h1, ?_⟩
          intro h' hh
          simp only [Option.some.injEq] at hh
          subst hh
          exact h2
    obtain ⟨h1, h2⟩ := redis_connect_failed conn auth ctx hc hret.1
    obtain ⟨h3, h4, h5⟩ := redis_connect_config conn auth ctx
    exact ⟨hret.1, h2, h1, h3, h4, h5, hret.2⟩
  · intro a server port pw w open_result hpw hauth
    have key : (redis_setup a open_result auth server port (some pw) w).1 = 0 := by
      cases hn : (redis_ctx_new a server port (some pw)).1 with
      | none => rw [redis_setup_of_no_ctx a open_result auth server port (some pw) w hn]
      | some c =>
        rw [redis_setup_of_ctx a open_result auth server port (some pw) w c hn]
        obtain ⟨hz, _, _, _, hp⟩ := redis_ctx_new_fresh a server port (some pw) c hn
        simp only [Option.some_bind, hpw, ne_eq, not_false_eq_true, if_true] at hp
        cases open_result with
        | none => exact (redis_connect_open_failed none auth c hz (Or.inl rfl)).1
        | some h => exact (redis_connect_auth_failed h auth c (cstr pw) hz hp hauth).1
    refine ⟨key, ?_⟩
    rw [← redis_setup_ret a open_result auth server port (some pw) w]
    exact key
  · intro a server port pw w h hpw h1 h2 herr
    have hn : ∃ c, (redis_ctx_new a server port (some pw)).1 = some c := by
      simp [redis_ctx_new, h1, h2, hpw]
    obtain ⟨c, hn⟩ := hn
    obtain ⟨hz, _, _, _, hp⟩ := redis_ctx_new_fresh a server port (some pw) c hn
    simp only [Option.some_bind, hpw, ne_eq, not_true_eq_false, if_false] at hp
    have hnone : ∀ p, c.password = some p →
        ∃ r, auth = some r ∧ r.type ≠ REDIS_REPLY_ERROR := by
      intro p hpp
      rw [hp] at hpp
      cases hpp
    have key : (redis_setup a (some h) auth server port (some pw) w).1 = 1 := by
      rw [redis_setup_of_ctx a (some h) auth server port (some pw) w c hn]
      exact (redis_connect_success h auth c hz herr hnone).1
    refine ⟨key, ?_⟩
    rw [← redis_setup_ret a (some h) auth server port (some pw) w]
    exact key

/-! ## The result of Fetch -/

theorem redis_get_result_of_up (lt : LenType) (reply : Option redisReply) (key buffer : Bytes)
    (buffer_length : Int) (w : World) (h : redis_is_connected w ≠ 0) :
    (redis_get lt reply key buffer buffer_length w).result
      = (match reply with
         | none => some 0
         | some r =>
           if r.type != REDIS_REPLY_ERROR && len_lt lt r.len buffer_length then
             (match r.str with
              | none => none
              | some _ => some 1)
           else some 0) := by
  obtain ⟨c, hd, _, _, hh⟩ := handle_of_connected w h
  simp only [redis_get, beq_iff_eq, h, if_false, hh]
  cases reply with
  | none => rfl
  | some r =>
    simp only
    split
    · cases r.str <;> rfl
    · rfl

theorem redis_get_buffer (lt : LenType) (reply : Option redisReply) (key buffer : Bytes)
    (buffer_length : Int) (w : World) :
    (redis_get lt reply key buffer buffer_length w).buffer = buffer := by
  unfold redis_get
  split
  · rfl
  · split
    · rfl
    · cases reply with
      | none => rfl
      | some r =>
        simp only
        split
        · cases r.str <;> rfl
        · rfl

theorem len_lt_of_plain (lt : LenType) (len : Nat) (buffer_length : Int)
    (hcap : buffer_length < 2147483648) (h : 0 ≤ buffer_length ∨ lt = LenType.int) :
    len_lt lt len buffer_length = true ↔ (len : Int) < buffer_length := by
  cases lt with
  | int => simp [len_lt]
  | size_t =>
    have h0 : 0 ≤ buffer_length := by
      rcases h with h | h
      · exact h
      · cases h
    simp [len_lt, to_size_t_of_nonneg buffer_length h0 hcap]

theorem len_lt_of_wrapped (len : Nat) (buffer_length : Int)
    (hcap : -2147483648 ≤ buffer_length) (h : buffer_length < 0) :
    len_lt LenType.size_t len buffer_length = true
      ↔ (len : Int) < 18446744073709551616 + buffer_length := by
  simp [len_lt, to_size_t_of_neg buffer_length hcap h]

theorem redis_get_null_payload (lt : LenType) (r : redisReply) (key buffer : Bytes)
    (buffer_length : Int) (w : World) (hup : redis_is_connected w ≠ 0)
    (htype : r.type ≠ REDIS_REPLY_ERROR) (hlen : len_lt lt r.len buffer_length = true)
    (hnull : r.str = none) :
    (redis_get lt (some r) key buffer buffer_length w).result = none := by
  rw [redis_get_result_of_up lt (some r) key buffer buffer_length w hup]
  simp [htype, hlen, hnull]

/-- C3, as the code has it: in a connected state, for a reply that is absent or
carries a payload pointer, and for every `int` capacity,
`redis_get` returns 1 or 0, and it returns 1 exactly when a reply was received,
its type is not the error type and `reply->len < buffer_length` holds as C
evaluates it.  When the capacity is not negative, or when `len` is declared
`int`, that is the plain comparison `len < buffer_length`; in particular for a
capacity with `0 <= buffer_length <= len` the call returns 0.  When the capacity
is negative and `len` is declared `size_t`, the capacity is converted to
2^64 + buffer_length before the comparison. -/
theorem redis_get_true_iff (lt : LenType) (reply : Option redisReply) (key buffer : Bytes)
    (buffer_length : Int) (w : World)
    (hup : redis_is_connected w ≠ 0)
    (hcap : -2147483648 ≤ buffer_length ∧ buffer_length < 2147483648)
    (hstr : ∀ r, reply = some r → r.str ≠ none) :
    ((redis_get lt reply key buffer buffer_length w).result = some 1
        ∨ (redis_get lt reply key buffer buffer_length w).result = some 0)
      ∧ ((0 ≤ buffer_length ∨ lt = LenType.int) →
          ((redis_get lt reply key buffer buffer_length w).result = some 1
            ↔ ∃ r, reply = some r ∧ r.type ≠ REDIS_REPLY_ERROR ∧ (r.len : Int) < buffer_length))
      ∧ (0 ≤ buffer_length → ∀ r, reply = some r → buffer_length ≤ (r.len : Int) →
          (redis_get lt reply key buffer buffer_length w).result = some 0)
      ∧ ((buffer_length < 0 ∧ lt = LenType.size_t) →
          ((redis_get lt reply key buffer buffer_length w).result = some 1
            ↔ ∃ r, reply = some r ∧ r.type ≠ REDIS_REPLY_ERROR
                ∧ (r.len : Int) < 18446744073709551616 + buffer_length)) := by
  rw [redis_get_result_of_up lt reply key buffer buffer_length w hup]
  cases reply with
  | none => simp
  | some r =>
    have hs : r.str ≠ none := hstr r rfl
    obtain ⟨s, hs⟩ := Option.ne_none_iff_exists'.mp hs
    simp only [hs, Option.some.injEq, exists_eq_left', Bool.and_eq_true, bne_iff_ne, ne_eq]
    refine ⟨?_, ?_, ?_, ?_⟩
    · split <;> simp
    · intro h
      simp only [len_lt_of_plain lt r.len buffer_length hcap.2 h]
      split <;> simp_all
    · intro h0 r' hr hle
      cases hr
      simp only [len_lt_of_plain lt r.len buffer_length hcap.2 (Or.inl h0)]
      have : ¬ ((r.len : Int) < buffer_length) := by omega
      simp [this]
    · rintro ⟨hneg, hlt⟩
      subst hlt
      simp only [len_lt_of_wrapped r.len buffer_length hcap.1 hneg]
      split <;> simp_all

/-! ## The result of ExistsCheck -/

theorem redis_exists_result_of_up (reply : Option redisReply) (key : Bytes) (w : World)
    (h : redis_is_connected w ≠ 0) :
    (redis_exists reply key w).1
      = (match reply with
         | none => 0
         | some r => if r.type = REDIS_REPLY_INTEGER then to_int r.integer else 0) := by
  obtain ⟨c, hd, _, _, hh⟩ := handle_of_connected w h
  simp only [redis_exists, beq_iff_eq, h, if_false, hh]
  cases reply with
  | none => rfl
  | some r =>
    simp only
    split <;> rfl

/-- C4, as the code has it: in a connected state `redis_exists` returns the
reply's `long long` value converted to `int` (taken modulo 2^32) when the reply
is present and integer-typed, and 0 for every other reply shape, an error or
absent reply included.  So the result is nonzero exactly when the reply is
present, integer-typed and its value is not a multiple of 2^32; for a value in
the range of `int` the result is the value itself, nonzero exactly when the
value is. -/
theorem redis_exists_nonzero_iff (reply : Option redisReply) (key : Bytes) (w : World)
    (hup : redis_is_connected w ≠ 0) :
    ((redis_exists reply key w).1 ≠ 0
        ↔ ∃ r, reply = some r ∧ r.type = REDIS_REPLY_INTEGER ∧ r.integer % 4294967296 ≠ 0)
      ∧ (∀ r, reply = some r → r.type = REDIS_REPLY_INTEGER →
          (redis_exists reply key w).1 = to_int r.integer)
      ∧ (∀ r, reply = some r → r.type = REDIS_REPLY_INTEGER →
          -2147483648 ≤ r.integer → r.integer < 2147483648 →
          (redis_exists reply key w).1 = r.integer
            ∧ ((redis_exists reply key w).1 ≠ 0 ↔ r.integer ≠ 0))
      ∧ ((reply = none ∨ ∃ r, reply = some r ∧ r.type ≠ REDIS_REPLY_INTEGER) →
          (redis_exists reply key w).1 = 0) := by
  rw [redis_exists_result_of_up reply key w hup]
  cases reply with
  | none => simp
  | some r =>
    by_cases ht : r.type = REDIS_REPLY_INTEGER
    · simp only [ht, if_true]
      refine ⟨?_, ?_, ?_, ?_⟩
      · rw [ne_eq, to_int_eq_zero_iff]
        constructor
        · intro h
          exact ⟨r, rfl, ht, h⟩
        · rintro ⟨r', hr, _, h⟩
          cases hr
          exact h
      · intro r' hr _
        cases hr
        rfl
      · intro r' hr _ h1 h2
        cases hr
        rw [to_int_of_range r.integer h1 h2]
        exact ⟨rfl, Iff.rfl⟩
      · intro h
        rcases h with h | ⟨r', hr, hne⟩
        · cases h
        · cases hr
          exact absurd ht hne
    · simp [ht]

/-! ## The connected flag over all call sequences -/

theorem redis_connect_succeeded (conn : Option redisContext) (auth : Option redisReply)
    (ctx : redis_conn_ctx_t) (hc : ctx.is_connected = 0)
    (hflag : (redis_connect conn auth ctx).ctx.is_connected ≠ 0) :
    ∃ h, conn = some h ∧ h.err = 0 ∧ (redis_connect conn auth ctx).ctx.ctx = some h
      ∧ ∀ p, ctx.password = some p →
          ∃ r pre, r.type ≠ REDIS_REPLY_ERROR
            ∧ (redis_connect conn auth ctx).events
                = pre ++ [Event.connect ctx.server ctx.port (some h),
                    Event.command h (Command.AUTH (fmt_s p)) (some r)] := by
  revert hflag
  unfold redis_connect
  cases conn with
  | none => simp [hc]
  | some h =>
    by_cases he : h.err = 0
    · cases hp : ctx.password with
      | none => simp [hc, he]
      | some p =>
        cases auth with
        | none => simp [hc, he]
        | some r =>
          by_cases hr : r.type = REDIS_REPLY_ERROR
          · simp [hc, he, hr]
          · intro _
            refine ⟨h, rfl, he, by simp [hc, he, hr], ?_⟩
            intro p' hp'
            cases hp'
            refine ⟨r, (match ctx.ctx with
              | some old => [Event.free old]
              | none => []), hr, ?_⟩
            simp [hc, he, hr]
    · simp [hc, he]

theorem cstr_ne_nil_of_strlen (p : Bytes) (h : strlen p ≠ 0) : cstr p ≠ [] := by
  intro hnil
  apply h
  simp [strlen, hnil]

theorem connected_invariant_initial : connected_invariant initial := by
  intro c hc
  simp [initial] at hc

theorem connected_invariant_setup (a : Alloc) (conn : Option redisContext)
    (auth : Option redisReply) (server : Bytes) (port : Nat) (password : Option Bytes)
    (w : World) : connected_invariant (redis_setup a conn auth server port password w).2 := by
  cases hn : (redis_ctx_new a server port password).1 with
  | none =>
    rw [redis_setup_of_no_ctx a conn auth server port password w hn]
    intro c hc
    simp at hc
  | some ctx =>
    rw [redis_setup_of_ctx a conn auth server port password w ctx hn]
    obtain ⟨hz, _, _, _, hpw⟩ := redis_ctx_new_fresh a server port password ctx hn
    intro c hc hflag
    simp only [Option.some.injEq] at hc
    subst hc
    obtain ⟨h, _, herr, hh, hauth⟩ := redis_connect_succeeded conn auth ctx hz hflag
    obtain ⟨h1, h2, h3⟩ := redis_connect_config conn auth ctx
    refine ⟨h, hh, herr, ?_⟩
    intro p hp
    rw [h3] at hp
    constructor
    · rw [hp] at hpw
      cases password with
      | none => simp at hpw
      | some q =>
        by_cases hq : strlen q = 0
        · simp [hq] at hpw
        · simp only [Option.some_bind, hq, ne_eq, not_false_eq_true, if_true,
            Option.some.injEq] at hpw
          rw [hpw]
          exact cstr_ne_nil_of_strlen q hq
    · obtain ⟨r, pre, hr, hev⟩ := hauth p hp
      refine ⟨r, (w.trace
          ++ (match w.redis_ctx with
              | some old => redis_ctx_free old
              | none => [])
          ++ (redis_ctx_new a server port password).2) ++ pre, [], hr, ?_, by simp⟩
      rw [h1, h2, hev]
      simp [List.append_assoc]

theorem connected_invariant_append (w : World) (e : Event)
    (hinv : connected_invariant w)
    (he : ∀ h, handle w = some h → isCommandOn h e = true) :
    connected_invariant { w with trace := w.trace ++ [e] } := by
  intro c hc hflag
  obtain ⟨h, hh, herr, hauth⟩ := hinv c hc hflag
  refine ⟨h, hh, herr, ?_⟩
  intro p hp
  obtain ⟨hne, r, pre, post, hr, ht, hpost⟩ := hauth p hp
  refine ⟨hne, r, pre, post ++ [e], hr, ?_, ?_⟩
  · show w.trace ++ [e] = _
    rw [ht]
    simp [List.append_assoc]
  · intro e' he'
    rcases List.mem_append.mp he' with h1 | h1
    · exact hpost e' h1
    · have : e' = e := by simpa using h1
      subst this
      apply he
      simp only at hc
      simp [handle, hc, hh]

theorem isCommandOn_command (h : redisContext) (cmd : Command) (reply : Option redisReply) :
    isCommandOn h (Event.command h cmd reply) = true := by
  simp [isCommandOn]

theorem connected_invariant_step (w : World) (call : Call) (hinv : connected_invariant w) :
    connected_invariant (step w call) := by
  cases call with
  | setup a conn auth server port password =>
    exact connected_invariant_setup a conn auth server port password w
  | set reply key value length ttl =>
    show connected_invariant (redis_set reply key value length ttl w)
    by_cases h : redis_is_connected w = 0
    · rw [redis_set_of_down reply key value length ttl w h]
      exact hinv
    · obtain ⟨c, hd, _, _, hh⟩ := handle_of_connected w h
      rw [redis_set_of_up reply key value length ttl w hd h hh]
      apply connected_invariant_append w _ hinv
      intro h' hh'
      rw [hh] at hh'
      cases hh'
      exact isCommandOn_command _ _ _
  | get lt reply key buffer buffer_length =>
    show connected_invariant (redis_get lt reply key buffer buffer_length w).world
    by_cases h : redis_is_connected w = 0
    · rw [redis_get_of_down lt reply key buffer buffer_length w h]
      exact hinv
    · obtain ⟨c, hd, _, _, hh⟩ := handle_of_connected w h
      rw [redis_get_world_of_up lt reply key buffer buffer_length w hd h hh]
      apply connected_invariant_append w _ hinv
      intro h' hh'
      rw [hh] at hh'
      cases hh'
      exact isCommandOn_command _ _ _
  | existsCheck reply key =>
    show connected_invariant (redis_exists reply key w).2
    by_cases h : redis_is_connected w = 0
    · rw [redis_exists_of_down reply key w h]
      exact hinv
    · obtain ⟨c, hd, _, _, hh⟩ := handle_of_connected w h
      rw [redis_exists_world_of_up reply key w hd h hh]
      apply connected_invariant_append w _ hinv
      intro h' hh'
      rw [hh] at hh'
      cases hh'
      exact isCommandOn_command _ _ _

theorem connected_invariant_foldl (calls : List Call) (w : World)
    (hinv : connected_invariant w) : connected_invariant (calls.foldl step w) := by
  induction calls generalizing w with
  | nil => exact hinv
  | cons call rest ih => exact ih (step w call) (connected_invariant_step w call hinv)

/-- C9: in every state reached from program start by any sequence of
`redis_setup`, `redis_set`, `redis_get` and `redis_exists` calls, under any
outcomes of allocation, transport open and replies, a set connected flag implies
that the handle pointer is not NULL and that the handle opened without error;
and when a password is stored (only a non-empty one ever is), the trace holds
the opening of this handle followed at once by the AUTH command for the stored
password on it with a reply that is not an error, and after that only commands
on this same handle. -/
theorem connected_implies_authenticated (calls : List Call) (c : redis_conn_ctx_t)
    (hctx : (run calls).redis_ctx = some c) (hflag : c.is_connected ≠ 0) :
    ∃ h, c.ctx = some h ∧ h.err = 0 ∧
      ∀ p, c.password = some p →
        p ≠ [] ∧ ∃ r pre post, r.type ≠ REDIS_REPLY_ERROR
          ∧ (run calls).trace = pre ++ Event.connect c.server c.port (some h)
              :: Event.command h (Command.AUTH (fmt_s p)) (some r) :: post
          ∧ ∀ e ∈ post, isCommandOn h e = true :=
  connected_invariant_foldl calls initial connected_invariant_initial c hctx hflag

/-! ## Connection attempts are made by Configure only -/

theorem connects_append (t1 t2 : List Event) :
    connects (t1 ++ t2) = connects t1 + connects t2 := by
  simp [connects, List.countP_append]

theorem connects_redis_ctx_free (ctx : redis_conn_ctx_t) : connects (redis_ctx_free ctx) = 0 := by
  unfold redis_ctx_free
  cases ctx.ctx <;> simp [connects, isConnect]

theorem connects_redis_ctx_new (a : Alloc) (server : Bytes) (port : Nat)
    (password : Option Bytes) : connects (redis_ctx_new a server port password).2 = 0 := by
  unfold redis_ctx_new
  split
  · simp [connects]
  · simp only
    split
    · exact connects_redis_ctx_free _
    · simp [connects]

theorem connects_redis_connect (conn : Option redisContext) (auth : Option redisReply)
    (ctx : redis_conn_ctx_t) (hc : ctx.is_connected = 0) :
    connects (redis_connect conn auth ctx).events = 1 := by
  unfold redis_connect
  cases hs : ctx.ctx <;> cases conn with
  | none => simp [hc, connects, isConnect]
  | some h =>
    by_cases he : h.err = 0
    · cases hp : ctx.password with
      | none => simp [hc, he, connects, isConnect]
      | some p =>
        cases auth with
        | none => simp [hc, he, connects, isConnect]
        | some r =>
          by_cases hr : r.type = REDIS_REPLY_ERROR <;> simp [hc, he, hr, connects, isConnect]
    · simp [hc, he, connects, isConnect]

theorem redis_ctx_new_of_ok (a : Alloc) (server : Bytes) (port : Nat) (password : Option Bytes)
    (h1 : a.ctx_ok = true) (h2 : a.server_ok = true) (h3 : a.password_ok = true) :
    ∃ ctx, (redis_ctx_new a server port password).1 = some ctx := by
  simp [redis_ctx_new, h1, h2, h3]

theorem redis_setup_success (a : Alloc) (h : redisContext) (auth : Option redisReply)
    (server : Bytes) (port : Nat) (password : Option Bytes) (w : World)
    (halloc : a.ctx_ok = true ∧ a.server_ok = true ∧ a.password_ok = true)
    (herr : h.err = 0)
    (hauth : ∀ p, password = some p → strlen p ≠ 0 →
      ∃ r, auth = some r ∧ r.type ≠ REDIS_REPLY_ERROR) :
    (redis_setup a (some h) auth server port password w).1 = 1
      ∧ handle (redis_setup a (some h) auth server port password w).2 = some h
      ∧ connects (redis_setup a (some h) auth server port password w).2.trace
          = connects w.trace + 1 := by
  obtain ⟨ctx, hn⟩ := redis_ctx_new_of_ok a server port password halloc.1 halloc.2.1 halloc.2.2
  obtain ⟨hz, _, _, _, hpw⟩ := redis_ctx_new_fresh a server port password ctx hn
  have hauth2 : ∀ p, ctx.password = some p → ∃ r, auth = some r ∧ r.type ≠ REDIS_REPLY_ERROR := by
    intro p hp
    rw [hpw] at hp
    cases password with
    | none => simp at hp
    | some q =>
      by_cases hq : strlen q = 0
      · simp [hq] at hp
      · exact hauth q rfl hq
  obtain ⟨h1, h2⟩ := redis_connect_success h auth ctx hz herr hauth2
  rw [redis_setup_of_ctx a (some h) auth server port password w ctx hn]
  refine ⟨h1, ?_, ?_⟩
  · simp [handle, h2]
  · simp only [connects_append, connects_redis_ctx_new,
      connects_redis_connect (some h) auth ctx hz]
    cases w.redis_ctx with
    | none => simp [connects]
    | some old => simp [connects_redis_ctx_free]

/-- C1, as the code has it: the data operations are gated by `redis_is_connected`
and never call `redis_connect`.  In every state in which `redis_is_connected` is
0, a configured but disconnected one included, `redis_set`, `redis_get` and
`redis_exists` leave the state and its trace as they are (no connection attempt,
no command) and the latter two return 0.  The connection attempt is made by
`redis_setup`: with allocation succeeding it makes exactly one; if the transport
opens without error and AUTH, when a non-empty password is given, gets a reply
that is not an error, it returns 1, the state is connected, and each data
operation then issues exactly its one command on that handle. -/
theorem data_ops_never_reconnect (lt : LenType) (reply : Option redisReply)
    (key value buffer : Bytes) (length ttl buffer_length : Int) (w : World)
    (a : Alloc) (h : redisContext) (auth : Option redisReply)
    (server : Bytes) (port : Nat) (password : Option Bytes)
    (hdown : redis_is_connected w = 0)
    (halloc : a.ctx_ok = true ∧ a.server_ok = true ∧ a.password_ok = true)
    (herr : h.err = 0)
    (hauth : ∀ p, password = some p → strlen p ≠ 0 →
      ∃ r, auth = some r ∧ r.type ≠ REDIS_REPLY_ERROR) :
    (redis_set reply key value length ttl w = w
        ∧ redis_get lt reply key buffer buffer_length w
            = { result := some 0, world := w, buffer := buffer, reply_str := none }
        ∧ redis_exists reply key w = (0, w))
      ∧ (redis_setup a (some h) auth server port password w).1 = 1
      ∧ redis_is_connected (redis_setup a (some h) auth server port password w).2 = 1
      ∧ handle (redis_setup a (some h) auth server port password w).2 = some h
      ∧ connects (redis_setup a (some h) auth server port password w).2.trace
          = connects w.trace + 1
      ∧ (redis_set reply key value length ttl
            (redis_setup a (some h) auth server port password w).2).trace
          = (redis_setup a (some h) auth server port password w).2.trace
              ++ [Event.command h
                    (if ttl > 0 then
                      Command.SETEX (fmt_s key) (fmt_d ttl) (fmt_b value length)
                     else Command.SET (fmt_s key) (fmt_b value length)) reply]
      ∧ (redis_get lt reply key buffer buffer_length
            (redis_setup a (some h) auth server port password w).2).world.trace
          = (redis_setup a (some h) auth server port password w).2.trace
              ++ [Event.command h (Command.GET (fmt_s key)) reply]
      ∧ (redis_exists reply key
            (redis_setup a (some h) auth server port password w).2).2.trace
          = (redis_setup a (some h) auth server port password w).2.trace
              ++ [Event.command h (Command.EXISTS (fmt_s key)) reply] := by
  obtain ⟨h1, h2, h3⟩ := redis_setup_success a h auth server port password w halloc herr hauth
  have hup : redis_is_connected (redis_setup a (some h) auth server port password w).2 = 1 := by
    rw [← redis_setup_ret a (some h) auth server port password w]
    exact h1
  have hne : redis_is_connected (redis_setup a (some h) auth server port password w).2 ≠ 0 := by
    rw [hup]
    decide
  refine ⟨⟨redis_set_of_down reply key value length ttl w hdown,
    redis_get_of_down lt reply key buffer buffer_length w hdown,
    redis_exists_of_down reply key w hdown⟩, h1, hup, h2, h3, ?_, ?_, ?_⟩
  · rw [redis_set_of_up reply key value length ttl _ h hne h2]
  · rw [redis_get_world_of_up lt reply key buffer buffer_length _ h hne h2]
  · rw [redis_exists_world_of_up reply key _ h hne h2]

/-! ## Store: the command that is sent -/

theorem fmt_d_of_range (ttl : Int) (h1 : -2147483648 ≤ ttl) (h2 : ttl < 2147483648) :
    fmt_d ttl = ttl :=
  to_int_of_range ttl h1 h2

theorem fmt_b_of_length (value : Bytes) (n : Nat) (h : n < 2147483648) :
    fmt_b value (n : Int) = value.take n := by
  unfold fmt_b to_size_t
  have : ((n : Int) % 18446744073709551616).toNat = n := by omega
  rw [this]

theorem redis_set_sends (reply : Option redisReply) (key value : Bytes) (n : Nat) (ttl : Int)
    (w : World) (hd : redisContext) (h : redis_is_connected w ≠ 0) (hh : handle w = some hd)
    (hn : n < 2147483648) (httl : ttl < 2147483648) :
    (redis_set reply key value (n : Int) ttl w).trace
      = w.trace ++ [Event.command hd
          (if ttl > 0 then Command.SETEX (cstr key) ttl (value.take n)
           else Command.SET (cstr key) (value.take n)) reply] := by
  rw [redis_set_of_up reply key value (n : Int) ttl w hd h hh, fmt_b_of_length value n hn]
  by_cases hpos : ttl > 0
  · have : fmt_d ttl = ttl := fmt_d_of_range ttl (by omega) httl
    simp [hpos, this, fmt_s]
  · simp [hpos, fmt_s]

/-- C6 at the failing input: in the connected state `world_up`, `redis_set` with
the positive `long` TTL 2147483648 (2^31) sends SETEX with the TTL argument
-2147483648, because the `%d` conversion reads the argument as an `int`; and
with the TTL 4294967297 (2^32 + 1) it sends SETEX with the TTL argument 1. -/
theorem redis_set_ttl_above_int_example :
    redis_set none [107] [118, 0, 119] 3 2147483648 world_up
        = { world_up with
            trace := world_up.trace
              ++ [Event.command handle7
                    (Command.SETEX [107] (-2147483648) [118, 0, 119]) none] }
      ∧ redis_set none [107] [118, 0, 119] 3 4294967297 world_up
        = { world_up with
            trace := world_up.trace
              ++ [Event.command handle7 (Command.SETEX [107] 1 [118, 0, 119]) none] } := by
  decide

/-! ## Fetch: what is copied where -/

/-- C2 at the failing input: in the connected state `world_up`, for the string
reply "ab" and the caller buffer "xyzw" of capacity 4, `redis_get` returns 1, the
caller buffer still holds "xyzw", whose first two bytes are not the payload, and
the memory of the reply has been overwritten with the first three bytes of the
caller buffer: `strncpy` is called with the reply as destination and the caller
buffer as source. -/
theorem redis_get_copies_into_reply_example :
    (redis_get LenType.size_t (some reply_ab) [107] [120, 121, 122, 119] 4 world_up).result
        = some 1
      ∧ (redis_get LenType.size_t (some reply_ab) [107] [120, 121, 122, 119] 4 world_up).buffer
        = [120, 121, 122, 119]
      ∧ ((redis_get LenType.size_t (some reply_ab) [107] [120, 121, 122, 119] 4
            world_up).buffer.take reply_ab.len ≠ [97, 98])
      ∧ (redis_get LenType.size_t (some reply_ab) [107] [120, 121, 122, 119] 4
            world_up).reply_str
        = some [120, 121, 122] := by
  decide

/-! ## Concrete inputs -/

/-- C1 fails as stated: `world_down` is configured and not connected, and
`redis_set`, `redis_get` and `redis_exists` on it make no connection attempt (the
number of attempts in the trace stays that of `world_down`, not one more), issue
no command (the state is `world_down` again) and leave it disconnected. -/
theorem data_op_on_disconnected_state_example :
    world_down.redis_ctx = some { server := [104], port := 6379, password := none
                                  ctx := none, is_connected := 0 }
      ∧ redis_is_connected world_down = 0
      ∧ connects (redis_set (some reply_ok) [107] [118] 1 0 world_down).trace
          = connects world_down.trace
      ∧ connects (redis_get LenType.size_t (some reply_ab) [107] [0, 0, 0, 0] 4
          world_down).world.trace = connects world_down.trace
      ∧ connects (redis_exists (some reply_one) [107] world_down).2.trace
          = connects world_down.trace
      ∧ redis_set (some reply_ok) [107] [118] 1 0 world_down = world_down
      ∧ (redis_get LenType.size_t (some reply_ab) [107] [0, 0, 0, 0] 4 world_down).world
          = world_down
      ∧ (redis_exists (some reply_one) [107] world_down).2 = world_down
      ∧ redis_is_connected (redis_exists (some reply_one) [107] world_down).2 = 0 := by
  decide

theorem data_ops_never_reconnect_witness :
    redis_is_connected world_down = 0
      ∧ (alloc_ok.ctx_ok = true ∧ alloc_ok.server_ok = true ∧ alloc_ok.password_ok = true)
      ∧ handle7.err = 0
      ∧ redis_get LenType.size_t (some reply_ab) [107] [0, 0, 0, 0] 4 world_down
          = { result := some 0, world := world_down, buffer := [0, 0, 0, 0], reply_str := none }
      ∧ redis_is_connected
          (redis_setup alloc_ok (some handle7) (some reply_ok) [104] 6379 (some [112, 119])
            world_down).2 = 1 :=
  have h := data_ops_never_reconnect LenType.size_t (some reply_ab) [107] [118] [0, 0, 0, 0]
    1 0 4 world_down alloc_ok handle7 (some reply_ok) [104] 6379 (some [112, 119])
    (by decide) (by decide) (by decide)
    (fun _ _ _ => ⟨reply_ok, rfl, by decide⟩)
  ⟨by decide, by decide, by decide, h.1.2.1, h.2.2.1⟩

/-- C3 fails as stated, at two inputs in the connected state `world_up`.  With
`len` declared `size_t`, for the string reply "ab" of length 2 and the capacity
-1, `redis_get` returns 1 although the capacity is not above the length.  And
with either declaration of `len`, for the nil reply (received, not an error,
length 0) and the capacity 4, `redis_get` does not return 1: it hands the NULL
payload pointer of the reply to `strncpy` as destination. -/
theorem redis_get_true_iff_fails_example :
    redis_is_connected world_up = 1
      ∧ reply_ab.type ≠ REDIS_REPLY_ERROR
      ∧ ((-1 : Int) ≤ (reply_ab.len : Int))
      ∧ (redis_get LenType.size_t (some reply_ab) [107] [0] (-1) world_up).result = some 1
      ∧ reply_nil.type ≠ REDIS_REPLY_ERROR
      ∧ ((reply_nil.len : Int) < 4)
      ∧ (redis_get LenType.int (some reply_nil) [107] [0, 0, 0, 0] 4 world_up).result = none
      ∧ (redis_get LenType.size_t (some reply_nil) [107] [0, 0, 0, 0] 4 world_up).result
          = none := by
  decide

theorem redis_get_true_iff_witness :
    redis_is_connected world_up ≠ 0
      ∧ ((-2147483648 : Int) ≤ 4 ∧ (4 : Int) < 2147483648)
      ∧ (redis_get LenType.size_t (some reply_ab) [107] [0, 0, 0, 0] 4 world_up).result
          = some 1 :=
  have h := redis_get_true_iff LenType.size_t (some reply_ab) [107] [0, 0, 0, 0] 4 world_up
    (by decide) (by decide)
    (fun r hr => by cases hr; decide)
  ⟨by decide, by decide, (h.2.1 (Or.inl (by decide))).mpr ⟨reply_ab, rfl, by decide, by decide⟩⟩

/-- C4 fails as stated: in the connected state `world_up`, for the integer-typed
reply carrying 4294967296 (2^32, a nonzero value of `long long`), `redis_exists`
returns 0. -/
theorem redis_exists_narrowing_example :
    redis_is_connected world_up = 1
      ∧ reply_big.type = REDIS_REPLY_INTEGER
      ∧ reply_big.integer ≠ 0
      ∧ (-9223372036854775808 ≤ reply_big.integer ∧ reply_big.integer < 9223372036854775808)
      ∧ (redis_exists (some reply_big) [107] world_up).1 = 0 := by
  decide

theorem redis_exists_nonzero_iff_witness :
    redis_is_connected world_up ≠ 0
      ∧ (redis_exists (some reply_one) [107] world_up).1 = 1 :=
  have h := redis_exists_nonzero_iff (some reply_one) [107] world_up (by decide)
  ⟨by decide, (h.2.2.1 reply_one rfl rfl (by decide) (by decide)).1⟩

/-- C8 fails as stated for the empty password: `redis_ctx_new` stores no password
when the given one has length 0, so `redis_connect` sends no AUTH command, and
`redis_setup` with the password "" returns 1 and leaves `redis_is_connected` at 1
as soon as the transport opens, although the server would answer AUTH with an
error reply.  The trace holds the opening of the handle and no command. -/
theorem redis_setup_empty_password_example :
    reply_err.type = REDIS_REPLY_ERROR
      ∧ (redis_setup alloc_ok (some handle7) (some reply_err) [104] 6379 (some []) initial).1
          = 1
      ∧ redis_is_connected
          (redis_setup alloc_ok (some handle7) (some reply_err) [104] 6379 (some [])
            initial).2 = 1
      ∧ (redis_setup alloc_ok (some handle7) (some reply_err) [104] 6379 (some [])
            initial).2.redis_ctx
          = some { server := [104], port := 6379, password := none
                   ctx := some handle7, is_connected := 1 }
      ∧ (redis_setup alloc_ok (some handle7) (some reply_err) [104] 6379 (some [])
            initial).2.trace
          = [Event.connect [104] 6379 (some handle7)] := by
  decide

theorem redis_connect_failure_stays_disconnected_witness :
    ctx_pw.is_connected = 0
      ∧ ctx_pw.password = some [112, 119]
      ∧ reply_err.type = REDIS_REPLY_ERROR
      ∧ (redis_connect (some handle7) (some reply_err) ctx_pw).ret = 0
      ∧ (redis_connect (some handle7) (some reply_err) ctx_pw).ctx.ctx = none
      ∧ redis_is_connected
          (redis_setup alloc_ok (some handle7) (some reply_err) [104] 6379 (some [112, 119])
            world_up).2 = 0 :=
  have h := redis_connect_failure_stays_disconnected (some handle7) (some reply_err) ctx_pw
    rfl (Or.inr (Or.inr ⟨[112, 119], rfl, Or.inr ⟨reply_err, rfl, rfl⟩⟩))
  ⟨rfl, rfl, rfl, h.1.1, h.1.2.2.1,
    (h.2.1 alloc_ok [104] 6379 [112, 119] world_up (some handle7) (by decide)
      (Or.inr ⟨reply_err, rfl, rfl⟩)).2⟩

theorem connected_implies_authenticated_witness :
    (run [Call.setup alloc_ok (some handle7) (some reply_ok) [104] 6379 (some [112, 119]),
          Call.get LenType.size_t (some reply_ab) [107] [0, 0, 0, 0] 4]).redis_ctx
        = some { ctx_pw with ctx := some handle7, is_connected := 1 }
      ∧ ({ ctx_pw with ctx := some handle7, is_connected := 1 } : redis_conn_ctx_t).is_connected
          ≠ 0
      ∧ ({ ctx_pw with ctx := some handle7, is_connected := 1 } : redis_conn_ctx_t).ctx.isSome
          = true :=
  have h := connected_implies_authenticated
    [Call.setup alloc_ok (some handle7) (some reply_ok) [104] 6379 (some [112, 119]),
     Call.get LenType.size_t (some reply_ab) [107] [0, 0, 0, 0] 4]
    { ctx_pw with ctx := some handle7, is_connected := 1 } (by decide) (by decide)
  ⟨by decide, by decide, by
    obtain ⟨hd, hh, _⟩ := h
    rw [hh]
    rfl⟩

end Redis
